import Mathlib

/-!
# Predictive-maintenance monitor: warning panel and blinker

A shallow embedding of `src/main.cpp`:

* `Warning_UI` (lines 270-325) is embedded as the list of effects the call
  performs, in program order: writes to the two `DigitalOut` LEDs, writes to
  the global `BLINK_WARNING_LED`, `printf` calls and LCD calls.
* `Effect.apply` / `run` execute such a list on the indicator state
  (`led_GREEN`, `led_RED`, `BLINK_WARNING_LED`).
* `ledWarning_thread_function` (lines 351-359) is embedded as one iteration of
  its loop body, and `interleave` runs the acquisition thread's effects and
  blinker iterations under an explicit schedule.

C++ `int` values are modelled as `Int`; the one place where the source does
arithmetic on them (`abs(actual_data_label-pred_label)`) wraps at 32 bits.
The string table `time_zone_labels` is declared in `SampleData.h`, which is not
part of the sources, so it is a parameter of `Warning_UI`.

* The part of the loop body of `dataAcqusition_thread_function` that builds and
  binds the input tensor (lines 214-247) is embedded as `input_x`, over an
  abstract element type `F` standing for `float`; the table `input_data_array`
  of `SampleData.h` is a parameter. `Vibration.ReadData` (lines 149-157) hands
  out the address of its own local array, so what the caller reads through it
  is the later content of that expired storage, which is a parameter as well.
-/

namespace PredictiveMaintenance

/-! ## Time-to-failure zones: `enum ZONES {FAULT, LT_15, LT_30, LT_60, LT_90, NORMAL}` -/

def FAULT : Int := 0
def LT_15 : Int := 1
def LT_30 : Int := 2
def LT_60 : Int := 3
def LT_90 : Int := 4
def NORMAL : Int := 5

/-! ## Indicator state -/

/-- The three shared variables written by `Warning_UI`: the two `DigitalOut`
LEDs (`true` = pin driven to 1) and the global `bool BLINK_WARNING_LED`. -/
structure Indicators where
  led_GREEN : Bool
  led_RED : Bool
  BLINK_WARNING_LED : Bool
  deriving DecidableEq, Repr

/-- One observable action of the acquisition thread inside `Warning_UI`. -/
inductive Effect where
  /-- Source statement `led_GREEN = v;` -/
  | set_led_GREEN (v : Bool)
  /-- Source statement `led_RED = v;` -/
  | set_led_RED (v : Bool)
  /-- Source statement `BLINK_WARNING_LED = v;` -/
  | set_BLINK_WARNING_LED (v : Bool)
  /-- Source statement `printf("\n >> Actual: %s | Predicted: %s | ", actual, predicted);` -/
  | printf_actual_predicted (actual predicted : String)
  /-- Source statement `printf("[CORRECT prediction]");` -/
  | printf_correct
  /-- Source statement `printf("[Fair prediction. Single-zone error]");` -/
  | printf_single_zone
  /-- Source statement `printf("[ !! ERROR !! of %d zones in prediction]", zone_error);` -/
  | printf_error_zones (zone_error : Int)
  /-- Source statement `printf("[FALSE ALARM despite normal operation!]");` -/
  | printf_false_alarm
  /-- Source statement `printf("\n >> Predicted time-to-failure: %s ", predicted);` -/
  | printf_predicted (predicted : String)
  /-- Source statement `lcd.Clear();` -/
  | lcd_Clear
  /-- Source statement `lcd.DisplayString(s);` -/
  | lcd_DisplayString (s : String)
  deriving DecidableEq, Repr

/-- Execute one effect on the indicator state. Console and LCD output do not
touch the LEDs or the blink flag. -/
def Effect.apply (s : Indicators) : Effect → Indicators
  | .set_led_GREEN v => { s with led_GREEN := v }
  | .set_led_RED v => { s with led_RED := v }
  | .set_BLINK_WARNING_LED v => { s with BLINK_WARNING_LED := v }
  | _ => s

/-- Execute a list of effects in order. -/
def run (s : Indicators) (es : List Effect) : Indicators :=
  es.foldl Effect.apply s

/-! ## 32-bit `int` arithmetic used by the diagnostic branch -/

/-- Reduce an integer to the signed range of a 32-bit `int`. -/
def wrap32 (x : Int) : Int := (x + 2147483648) % 4294967296 - 2147483648

/-- The library function `abs` on `int`. -/
def abs32 (x : Int) : Int := wrap32 (if x < 0 then -x else x)

/-! ## `Warning_UI` -/

/-- The function `void Warning_UI(int pred_label, int actual_data_label)`, as
the list of effects it performs in program order. `SIMULATED_DATA` is the
global flag and `time_zone_labels` the string table of `SampleData.h`
(`time_zone_labels i` stands for the array read `time_zone_labels[i]`). -/
def Warning_UI (SIMULATED_DATA : Bool) (time_zone_labels : Int → String)
    (pred_label actual_data_label : Int) : List Effect :=
  -- If normal, glow only GREEN
  (if pred_label = NORMAL then
    [.set_led_GREEN true, .set_led_RED false, .set_BLINK_WARNING_LED false]
   else []) ++
  -- If less than 30 minutes to failure, glow only RED
  (if (decide (pred_label > FAULT) && decide (pred_label ≤ LT_30)) then
    [.set_led_GREEN false, .set_led_RED true, .set_BLINK_WARNING_LED false]
   else []) ++
  -- Between 60 and 90 mins, warn, blink both
  (if (decide (pred_label > LT_30) && decide (pred_label ≤ LT_90)) then
    [.set_led_GREEN true, .set_led_RED true, .set_BLINK_WARNING_LED true]
   else []) ++
  -- If we are testing, print prediction errors
  (if SIMULATED_DATA then
    let zone_error : Int := abs32 (wrap32 (actual_data_label - pred_label))
    [.printf_actual_predicted (time_zone_labels actual_data_label)
        (time_zone_labels pred_label)] ++
    (if zone_error = 0 then [.printf_correct]
     else if zone_error = 1 then [.printf_single_zone]
     else
      (if zone_error > 1 then [.printf_error_zones zone_error] else []) ++
      (if (decide (actual_data_label = NORMAL) && decide (pred_label ≠ NORMAL)) then
        [.printf_false_alarm] else []))
   else [.printf_predicted (time_zone_labels pred_label)]) ++
  -- Display warnings on LCD
  [.lcd_Clear, .lcd_DisplayString (time_zone_labels pred_label)]

/-- The indicator state after a call of `Warning_UI` made in state `s`. -/
def Warning_UI_state (s : Indicators) (SIMULATED_DATA : Bool)
    (time_zone_labels : Int → String) (pred_label actual_data_label : Int) :
    Indicators :=
  run s (Warning_UI SIMULATED_DATA time_zone_labels pred_label actual_data_label)

/-- Whether an effect writes one of the three indicator variables. -/
def Effect.isIndicatorWrite : Effect → Bool
  | .set_led_GREEN _ => true
  | .set_led_RED _ => true
  | .set_BLINK_WARNING_LED _ => true
  | _ => false

/-- The ordered writes to the LEDs and the blink flag made by one call. -/
def indicatorWrites (es : List Effect) : List Effect :=
  es.filter Effect.isIndicatorWrite

/-- The ordered console output (the `printf` calls) made by one call. -/
def diagnostic (es : List Effect) : List Effect :=
  es.filter fun e =>
    match e with
    | .printf_actual_predicted _ _ => true
    | .printf_correct => true
    | .printf_single_zone => true
    | .printf_error_zones _ => true
    | .printf_false_alarm => true
    | .printf_predicted _ => true
    | _ => false

/-! ## The indicator states SAFE, IMMINENT and WARN of the specification -/

def SAFE : Indicators := ⟨true, false, false⟩
def IMMINENT : Indicators := ⟨false, true, false⟩
def WARN : Indicators := ⟨true, true, true⟩

/-! ## The blinker thread and interleaved runs -/

/-- One iteration of the loop body of `ledWarning_thread_function`:
`if (BLINK_WARNING_LED) { led_RED = !led_RED; wait(0.3); }`. -/
def ledWarning_thread_step (s : Indicators) : Indicators :=
  if s.BLINK_WARNING_LED then { s with led_RED := !s.led_RED } else s

/-- Which thread takes the next step. -/
inductive Turn where
  /-- The acquisition thread performs its next pending effect. -/
  | acquisition
  /-- The blinker thread performs one iteration of its loop. -/
  | blinker
  deriving DecidableEq, Repr

/-- Run a schedule: `pending` is what the acquisition thread still has to do.
An acquisition turn with nothing pending is a no-op. Returns the state and the
effects still pending. -/
def interleave : List Turn → Indicators → List Effect → Indicators × List Effect
  | [], s, pending => (s, pending)
  | .blinker :: ts, s, pending => interleave ts (ledWarning_thread_step s) pending
  | .acquisition :: ts, s, [] => interleave ts s []
  | .acquisition :: ts, s, e :: pending => interleave ts (Effect.apply s e) pending

/-- The effects of the acquisition thread over consecutive cycles; each cycle
is the pair `(pred_label, actual_data_label)` passed to `Warning_UI` at line
260 of the loop in `dataAcqusition_thread_function`. -/
def acquisition_cycles (SIMULATED_DATA : Bool) (time_zone_labels : Int → String)
    (cycles : List (Int × Int)) : List Effect :=
  cycles.flatMap fun c => Warning_UI SIMULATED_DATA time_zone_labels c.1 c.2

/-- Modelled from the spec: the zone label strings of the table
`time_zone_labels`, which is declared in `SampleData.h` (not among the sources).
The spec gives the display strings "FAULT", "<15 MIN", "<30 MIN", "<60 MIN"
and "NORMAL"; the entry for label 4 follows the same pattern. It only serves as
a concrete argument for `Warning_UI`; no LED or flag write depends on it. -/
def time_zone_labels_spec (i : Int) : String :=
  if i = 0 then "FAULT"
  else if i = 1 then "<15 MIN"
  else if i = 2 then "<30 MIN"
  else if i = 3 then "<60 MIN"
  else if i = 4 then "<90 MIN"
  else if i = 5 then "NORMAL"
  else ""

/-- The indicator state at boot: both `DigitalOut` pins start at 0 and
`BLINK_WARNING_LED` is initialised to `false` (line 79). -/
def initial : Indicators := ⟨false, false, false⟩

/-! ## The input tensor (lines 149-157 and 214-247) -/

/-- The constant `sensor_features` (line 63). -/
def sensor_features : Nat := 6

/-- The three `int` cells of an `int[3]` array. -/
abbrev Cells := Int × Int × Int

/-- What `WrappedRamTensor<float>(shape, address)` presents: the shape it was
given and the elements found at the wrapped address. -/
structure Tensor (F : Type) where
  shape : List Nat
  data : List F

/-- The method `int* Vibration::ReadData()` (lines 149-157): the local
`int data_array[3] = {0, 0, 0}` is filled by `accelerometer.getOutput` and its
address is returned. The value here is the content of the three cells at the
moment of return; the array is a local of the method, so its storage is
released by that same return. -/
def Vibration.ReadData (getOutput : Cells → Cells) : Cells :=
  let data_array : Cells := (0, 0, 0)
  getOutput data_array

/-- The tensor bound as model input in one iteration of the loop of
`dataAcqusition_thread_function` (lines 214-247).

* `zero` is the `float` value of the literals `0.00` / `0.0`, `ofInt` the
  conversion from `int` to `float` done by the assignments of lines 243-245.
* `input_data_array n k` stands for the array read `input_data_array[n][k]`
  (table of `SampleData.h`), `n` for `rand() % number_data_points`.
* `temperature_value` is the result of `temperature.ReadData()`.
* `expired cells` is what the released storage of `data_array` holds when
  lines 243-245 read `vibration_values[0..2]`, given that it held `cells` when
  `Vibration::ReadData` returned; the call of `printf` at line 235 runs on the
  same stack in between. -/
def input_x {F : Type} (SIMULATED_DATA : Bool) (zero : F) (ofInt : Int → F)
    (input_data_array : Nat → Nat → F) (n : Nat) (temperature_value : F)
    (getOutput : Cells → Cells) (expired : Cells → Cells) : Tensor F :=
  let sensor_data : List F := [zero, zero, zero, zero, zero, zero]
  if SIMULATED_DATA then
    { shape := [1, sensor_features],
      data := (List.range sensor_features).map fun k => input_data_array n k }
  else
    let vibration_values : Cells := expired (Vibration.ReadData getOutput)
    let sensor_data := sensor_data.set 0 zero
    let sensor_data := sensor_data.set 1 zero
    let sensor_data := sensor_data.set 2 temperature_value
    let sensor_data := sensor_data.set 3 (ofInt vibration_values.1)
    let sensor_data := sensor_data.set 4 (ofInt vibration_values.2.1)
    let sensor_data := sensor_data.set 5 (ofInt vibration_values.2.2)
    { shape := [1, sensor_features], data := sensor_data }

/-! ## Helper lemmas -/

/-- The LED part of `Warning_UI` (lines 274-292), as a function of the label. -/
theorem indicatorWrites_Warning_UI (sim : Bool) (tzl : Int → String) (p a : Int) :
    indicatorWrites (Warning_UI sim tzl p a) =
      (if p = NORMAL then
        [.set_led_GREEN true, .set_led_RED false, .set_BLINK_WARNING_LED false]
       else []) ++
      (if (decide (p > FAULT) && decide (p ≤ LT_30)) then
        [.set_led_GREEN false, .set_led_RED true, .set_BLINK_WARNING_LED false]
       else []) ++
      (if (decide (p > LT_30) && decide (p ≤ LT_90)) then
        [.set_led_GREEN true, .set_led_RED true, .set_BLINK_WARNING_LED true]
       else []) := by
  unfold indicatorWrites Warning_UI
  simp only [List.filter_append]
  cases sim <;> simp only [Bool.false_eq_true, if_true, if_false] <;>
    split_ifs <;> simp [Effect.isIndicatorWrite]

/-- Only the indicator writes of an effect list matter for the indicators. -/
theorem run_indicatorWrites (es : List Effect) (s : Indicators) :
    run s (indicatorWrites es) = run s es := by
  induction es generalizing s with
  | nil => rfl
  | cons e es ih =>
    cases e <;>
      simp_all [indicatorWrites, run, List.filter, Effect.isIndicatorWrite, Effect.apply]

/-- Closed form of the indicator state after a call of `Warning_UI`. -/
theorem Warning_UI_state_eq (s : Indicators) (sim : Bool) (tzl : Int → String)
    (p a : Int) :
    Warning_UI_state s sim tzl p a =
      if p = 5 then SAFE
      else if 1 ≤ p ∧ p ≤ 2 then IMMINENT
      else if 3 ≤ p ∧ p ≤ 4 then WARN
      else s := by
  unfold Warning_UI_state
  rw [← run_indicatorWrites, indicatorWrites_Warning_UI]
  simp only [FAULT, LT_30, LT_90, NORMAL, SAFE, IMMINENT, WARN]
  by_cases h5 : p = 5
  · subst h5; simp [run, Effect.apply]
  · by_cases h12 : 1 ≤ p ∧ p ≤ 2
    · have h1 : p > 0 := by omega
      have h2 : ¬ p > 2 := by omega
      simp [h5, h12, h1, h2, run, Effect.apply]
    · by_cases h34 : 3 ≤ p ∧ p ≤ 4
      · have h1 : p > 2 := by omega
        have h2 : ¬ p ≤ 2 := by omega
        simp [h5, h12, h34, h1, h2, run, Effect.apply]
      · have h1 : ¬ (p > 0 ∧ p ≤ 2) := by omega
        have h2 : ¬ (p > 2 ∧ p ≤ 4) := by omega
        simp [h5, h12, h34, h1, h2, run]

/-! ## The label to indicator-state table -/

/-- C1, as stated, fails for label 0 (FAULT): called in the state green on,
red off, flag false, `Warning_UI` leaves that state as it is, so the result is
not the IMMINENT state (green off, red on, flag false). -/
theorem Warning_UI_FAULT_not_imminent :
    Warning_UI_state ⟨true, false, false⟩ true time_zone_labels_spec 0 5
        = ⟨true, false, false⟩ ∧
    Warning_UI_state ⟨true, false, false⟩ true time_zone_labels_spec 0 5
        ≠ ⟨false, true, false⟩ := by
  rw [Warning_UI_state_eq]
  decide

/-- C1, amended: for every prior indicator state and every predicted label in
{1 (LT_15), 2 (LT_30)}, the state after `Warning_UI` is IMMINENT: green LED
off, red LED on, blink flag false. -/
theorem Warning_UI_imminent (s : Indicators) (sim : Bool) (tzl : Int → String)
    (pred_label actual_data_label : Int)
    (h : pred_label = LT_15 ∨ pred_label = LT_30) :
    Warning_UI_state s sim tzl pred_label actual_data_label =
      { led_GREEN := false, led_RED := true, BLINK_WARNING_LED := false } := by
  rw [Warning_UI_state_eq]
  rcases h with h | h <;> subst h <;> simp [LT_15, LT_30, IMMINENT]

/-- C1, amended, at a concrete input: label 2 (LT_30), called in the WARN state. -/
theorem Warning_UI_imminent_witness :
    (LT_30 = LT_15 ∨ LT_30 = LT_30) ∧
    Warning_UI_state ⟨true, true, true⟩ true time_zone_labels_spec LT_30 NORMAL =
      { led_GREEN := false, led_RED := true, BLINK_WARNING_LED := false } :=
  ⟨Or.inr rfl,
    Warning_UI_imminent ⟨true, true, true⟩ true time_zone_labels_spec LT_30 NORMAL
      (Or.inr rfl)⟩

/-- C2, as stated, fails: with predicted label 99, called in the state green
on, red on, flag true, `Warning_UI` leaves that state as it is, so the result
is not the UNKNOWN state (green off, red off, flag false). -/
theorem Warning_UI_out_of_range_not_unknown :
    Warning_UI_state ⟨true, true, true⟩ true time_zone_labels_spec 99 5
        = ⟨true, true, true⟩ ∧
    Warning_UI_state ⟨true, true, true⟩ true time_zone_labels_spec 99 5
        ≠ ⟨false, false, false⟩ := by
  rw [Warning_UI_state_eq]
  decide

/-- C2, amended: for every prior indicator state and every predicted label
outside {0,...,5}, the state after `Warning_UI` is the state before the call:
green LED, red LED and blink flag all keep their values. -/
theorem Warning_UI_out_of_range_keeps_state (s : Indicators) (sim : Bool)
    (tzl : Int → String) (pred_label actual_data_label : Int)
    (h : pred_label < 0 ∨ 5 < pred_label) :
    Warning_UI_state s sim tzl pred_label actual_data_label = s := by
  rw [Warning_UI_state_eq]
  have h5 : pred_label ≠ 5 := by omega
  have h12 : ¬ (1 ≤ pred_label ∧ pred_label ≤ 2) := by omega
  have h34 : ¬ (3 ≤ pred_label ∧ pred_label ≤ 4) := by omega
  simp [h5, h12, h34]

/-- C2, amended, at a concrete input: label 7, called in real mode
with green off, red on, flag false. -/
theorem Warning_UI_out_of_range_keeps_state_witness :
    ((7 : Int) < 0 ∨ (5 : Int) < 7) ∧
    Warning_UI_state ⟨false, true, false⟩ false time_zone_labels_spec 7 0 =
      ⟨false, true, false⟩ :=
  ⟨Or.inr (by decide),
    Warning_UI_out_of_range_keeps_state ⟨false, true, false⟩ false
      time_zone_labels_spec 7 0 (Or.inr (by decide))⟩

/-- C3, as stated, fails: from the state with everything off, `Warning_UI(5)`
followed by `Warning_UI(0)` ends with green on, while `Warning_UI(0)` alone
ends with green off. -/
theorem Warning_UI_not_memoryless :
    Warning_UI_state
        (Warning_UI_state ⟨false, false, false⟩ true time_zone_labels_spec 5 5)
        true time_zone_labels_spec 0 5
      ≠ Warning_UI_state ⟨false, false, false⟩ true time_zone_labels_spec 0 5 := by
  simp only [Warning_UI_state_eq]
  decide

/-- C3, amended: for every second label `L2` in {1,...,5}, every initial state
`s` and every first label `L1`, `Warning_UI(L1)` followed by `Warning_UI(L2)`
leaves the same (green, red, blink flag) as `Warning_UI(L2)` alone, and the
state after `Warning_UI(L2)` is the same from every prior state. -/
theorem Warning_UI_memoryless_in_range (s : Indicators)
    (sim1 sim2 : Bool) (tzl1 tzl2 : Int → String) (L1 L2 a1 a2 : Int)
    (h : 1 ≤ L2 ∧ L2 ≤ 5) :
    Warning_UI_state (Warning_UI_state s sim1 tzl1 L1 a1) sim2 tzl2 L2 a2
        = Warning_UI_state s sim2 tzl2 L2 a2 ∧
    ∀ s2 : Indicators,
      Warning_UI_state s2 sim2 tzl2 L2 a2 = Warning_UI_state s sim2 tzl2 L2 a2 := by
  have key : ∀ t : Indicators, Warning_UI_state t sim2 tzl2 L2 a2 =
      if L2 = 5 then SAFE else if 1 ≤ L2 ∧ L2 ≤ 2 then IMMINENT else WARN := by
    intro t
    rw [Warning_UI_state_eq]
    split_ifs <;> first | rfl | (exfalso; omega)
  refine ⟨?_, fun s2 => ?_⟩
  · rw [key, key]
  · rw [key, key]

/-- C3, amended, at a concrete input: first label 3, second label 2. -/
theorem Warning_UI_memoryless_in_range_witness :
    ((1 : Int) ≤ 2 ∧ (2 : Int) ≤ 5) ∧
    Warning_UI_state
        (Warning_UI_state ⟨false, false, false⟩ true time_zone_labels_spec 3 5)
        true time_zone_labels_spec 2 2
      = Warning_UI_state ⟨false, false, false⟩ true time_zone_labels_spec 2 2 :=
  ⟨by decide,
    (Warning_UI_memoryless_in_range ⟨false, false, false⟩ true true
      time_zone_labels_spec time_zone_labels_spec 3 2 5 2 (by decide)).1⟩

/-- C4: for every prior indicator state and every predicted label in
{3 (LT_60), 4 (LT_90)}, the state after `Warning_UI` is WARN: green LED on,
red LED on, blink flag true. -/
theorem Warning_UI_warn (s : Indicators) (sim : Bool) (tzl : Int → String)
    (pred_label actual_data_label : Int)
    (h : pred_label = LT_60 ∨ pred_label = LT_90) :
    Warning_UI_state s sim tzl pred_label actual_data_label =
      { led_GREEN := true, led_RED := true, BLINK_WARNING_LED := true } := by
  rw [Warning_UI_state_eq]
  rcases h with h | h <;> subst h <;> simp [LT_60, LT_90, WARN]

/-- C4 at a concrete input: label 3 (LT_60), called with everything off. -/
theorem Warning_UI_warn_witness :
    (LT_60 = LT_60 ∨ LT_60 = LT_90) ∧
    Warning_UI_state ⟨false, false, false⟩ true time_zone_labels_spec LT_60 NORMAL =
      { led_GREEN := true, led_RED := true, BLINK_WARNING_LED := true } :=
  ⟨Or.inl rfl,
    Warning_UI_warn ⟨false, false, false⟩ true time_zone_labels_spec LT_60 NORMAL
      (Or.inl rfl)⟩

/-- C5: for every prior indicator state, the state after
`Warning_UI(5 (NORMAL), _)` is SAFE: green LED on, red LED off, blink flag
false. -/
theorem Warning_UI_safe (s : Indicators) (sim : Bool) (tzl : Int → String)
    (actual_data_label : Int) :
    Warning_UI_state s sim tzl NORMAL actual_data_label =
      { led_GREEN := true, led_RED := false, BLINK_WARNING_LED := false } := by
  rw [Warning_UI_state_eq]
  simp [NORMAL, SAFE]

/-! ## Frame: labels that write nothing -/

/-- C10: for every prior indicator state and every predicted label that is 0
or lies outside {1,...,5}, `Warning_UI` performs no write to the green LED, the
red LED or the blink flag, and all three keep their values; and for every
label the resulting LEDs and flag do not depend on the ground-truth argument,
on the simulated-mode flag or on the label strings. -/
theorem Warning_UI_frame (s : Indicators) (sim : Bool) (tzl : Int → String)
    (pred_label actual_data_label : Int) :
    ((pred_label = 0 ∨ pred_label < 1 ∨ 5 < pred_label) →
      indicatorWrites (Warning_UI sim tzl pred_label actual_data_label) = [] ∧
      Warning_UI_state s sim tzl pred_label actual_data_label = s) ∧
    (∀ (sim2 : Bool) (tzl2 : Int → String) (actual2 : Int),
      Warning_UI_state s sim2 tzl2 pred_label actual2 =
        Warning_UI_state s sim tzl pred_label actual_data_label) := by
  refine ⟨fun h => ?_, fun sim2 tzl2 actual2 => ?_⟩
  · have h5 : pred_label ≠ 5 := by omega
    have h12 : ¬ (1 ≤ pred_label ∧ pred_label ≤ 2) := by omega
    have h34 : ¬ (3 ≤ pred_label ∧ pred_label ≤ 4) := by omega
    have g12 : ¬ (pred_label > 0 ∧ pred_label ≤ 2) := by omega
    have g34 : ¬ (pred_label > 2 ∧ pred_label ≤ 4) := by omega
    constructor
    · rw [indicatorWrites_Warning_UI]
      simp [FAULT, LT_30, LT_90, NORMAL, h5, g12, g34]
    · rw [Warning_UI_state_eq]
      simp [h5, h12, h34]
  · rw [Warning_UI_state_eq, Warning_UI_state_eq]

/-- C10 at a concrete input: label 0 (FAULT), called with green on, red off,
flag true. -/
theorem Warning_UI_frame_witness :
    ((0 : Int) = 0 ∨ (0 : Int) < 1 ∨ (5 : Int) < 0) ∧
    indicatorWrites (Warning_UI true time_zone_labels_spec 0 5) = [] ∧
    Warning_UI_state ⟨true, false, true⟩ true time_zone_labels_spec 0 5 =
      ⟨true, false, true⟩ :=
  ⟨Or.inl rfl,
    (Warning_UI_frame ⟨true, false, true⟩ true time_zone_labels_spec 0 5).1
      (Or.inl rfl)⟩

/-! ## Order of the writes inside one call -/

/-- C6: the ordered indicator writes of a call with label 5 (NORMAL) are green
:= 1, then red := 0, then blink flag := false, so the write red := 0 comes
before the write that clears the blink flag (position 1 against position 2),
not after it; the call with label 3 (LT_60) writes green := 1, red := 1 and
only then blink flag := true. -/
theorem Warning_UI_write_order (sim : Bool) (tzl : Int → String)
    (actual_data_label : Int) :
    indicatorWrites (Warning_UI sim tzl NORMAL actual_data_label) =
      [.set_led_GREEN true, .set_led_RED false, .set_BLINK_WARNING_LED false] ∧
    (indicatorWrites (Warning_UI sim tzl NORMAL actual_data_label)).indexOf
        (.set_led_RED false) <
      (indicatorWrites (Warning_UI sim tzl NORMAL actual_data_label)).indexOf
        (.set_BLINK_WARNING_LED false) ∧
    indicatorWrites (Warning_UI sim tzl LT_60 actual_data_label) =
      [.set_led_GREEN true, .set_led_RED true, .set_BLINK_WARNING_LED true] := by
  rw [indicatorWrites_Warning_UI, indicatorWrites_Warning_UI]
  refine ⟨by simp [FAULT, LT_30, LT_60, LT_90, NORMAL], ?_,
    by simp [FAULT, LT_30, LT_60, LT_90, NORMAL]⟩
  simp [FAULT, LT_30, LT_60, LT_90, NORMAL, List.indexOf_cons]

/-! ## Blinker interleaving -/

/-- C9: a run of the cycles NORMAL, LT_60, NORMAL, LT_60 from the boot state.
The acquisition thread completes the first two calls (7 effects each), the
blinker then iterates six times during the pause, the third call writes
green := 1 and red := 0, the blinker iterates once, and the third call
performs its remaining five effects (blink flag := false, two printf, two LCD
calls). When that call (label NORMAL) has just completed, nothing of it is
pending, the fourth call has not started, and the red LED is on (with the blink
flag false). The second part is the state the blinker meets at its turn inside
the third call: red already off, blink flag still true. -/
theorem blinker_leaves_red_on_after_NORMAL :
    interleave
        (List.replicate 14 Turn.acquisition ++ List.replicate 6 Turn.blinker ++
          List.replicate 2 Turn.acquisition ++ [Turn.blinker] ++
          List.replicate 5 Turn.acquisition)
        initial
        (acquisition_cycles true time_zone_labels_spec
          [(NORMAL, NORMAL), (LT_60, LT_60), (NORMAL, NORMAL), (LT_60, LT_60)])
      = ({ led_GREEN := true, led_RED := true, BLINK_WARNING_LED := false },
         Warning_UI true time_zone_labels_spec LT_60 LT_60) ∧
    (interleave
        (List.replicate 14 Turn.acquisition ++ List.replicate 6 Turn.blinker ++
          List.replicate 2 Turn.acquisition)
        initial
        (acquisition_cycles true time_zone_labels_spec
          [(NORMAL, NORMAL), (LT_60, LT_60), (NORMAL, NORMAL), (LT_60, LT_60)])).1
      = { led_GREEN := true, led_RED := false, BLINK_WARNING_LED := true } := by
  decide

/-! ## Diagnostic branch -/

/-- C7, as stated, fails for predicted label 4 (LT_90) with ground truth 5
(NORMAL) in simulated mode: the console output is the header followed by the
single-zone message only, and no FALSE ALARM message is printed. -/
theorem Warning_UI_single_zone_no_false_alarm :
    diagnostic (Warning_UI true time_zone_labels_spec LT_90 NORMAL) =
      [.printf_actual_predicted "NORMAL" "<90 MIN", .printf_single_zone] ∧
    Effect.printf_false_alarm ∉ Warning_UI true time_zone_labels_spec LT_90 NORMAL := by
  decide

/-- C7, amended: in simulated mode with ground truth 5 (NORMAL), for every
predicted label at least two zones away from NORMAL (at most 3, or at least 7)
for which `5 - pred_label` fits in a 32-bit `int`, the console output is the
header, then the ERROR message carrying `|5 - pred_label|` zones, then the
FALSE ALARM message. -/
theorem Warning_UI_false_alarm (tzl : Int → String) (pred_label : Int)
    (hlo : -2147483642 ≤ pred_label) (hhi : pred_label ≤ 2147483647)
    (h : pred_label ≤ 3 ∨ 7 ≤ pred_label) :
    diagnostic (Warning_UI true tzl pred_label NORMAL) =
      [.printf_actual_predicted (tzl NORMAL) (tzl pred_label),
       .printf_error_zones |NORMAL - pred_label|,
       .printf_false_alarm] := by
  have hw : wrap32 (NORMAL - pred_label) = NORMAL - pred_label := by
    unfold wrap32 NORMAL
    omega
  have ha : abs32 (NORMAL - pred_label) = |NORMAL - pred_label| := by
    unfold abs32 wrap32 NORMAL
    rcases h with h | h
    · rw [abs_of_nonneg (by omega)]
      split_ifs <;> omega
    · rw [abs_of_neg (by omega)]
      split_ifs <;> omega
  have hz : 2 ≤ |NORMAL - pred_label| := by
    unfold NORMAL
    rcases h with h | h
    · rw [abs_of_nonneg (by omega)]; omega
    · rw [abs_of_neg (by omega)]; omega
  have h0 : |NORMAL - pred_label| ≠ 0 := by omega
  have h1 : |NORMAL - pred_label| ≠ 1 := by omega
  have h2 : |NORMAL - pred_label| > 1 := by omega
  have hp : pred_label ≠ NORMAL := by unfold NORMAL; omega
  unfold diagnostic Warning_UI
  simp only [hw, ha, h0, h1, h2, hp, List.filter_append]
  split_ifs <;> simp_all

/-- C7, amended, at a concrete input: ground truth NORMAL, prediction LT_60. -/
theorem Warning_UI_false_alarm_witness :
    ((-2147483642 : Int) ≤ LT_60 ∧ LT_60 ≤ 2147483647 ∧ (LT_60 ≤ 3 ∨ 7 ≤ LT_60)) ∧
    diagnostic (Warning_UI true time_zone_labels_spec LT_60 NORMAL) =
      [.printf_actual_predicted (time_zone_labels_spec NORMAL)
          (time_zone_labels_spec LT_60),
       .printf_error_zones |NORMAL - LT_60|,
       .printf_false_alarm] :=
  ⟨by decide,
    Warning_UI_false_alarm time_zone_labels_spec LT_60 (by decide) (by decide)
      (Or.inl (by decide))⟩

/-! ## Feature placement -/

/-- C8: the bound tensor always has shape [1, 6] and six elements, and in
simulated mode they are the six entries of the drawn row. In real mode the
elements are (0, 0, t, a, b, c) where (a, b, c) is what the released storage of
the local array of `Vibration::ReadData` holds when it is read, not the
accelerometer output: for temperature 24.49 and output (10, -20, 30), once the
storage has been reused (here it holds (7, 7, 7)) the tensor is
(0, 0, 24.49, 7, 7, 7) and not (0, 0, 24.49, 10, -20, 30). Only while the
storage is untouched does the tensor equal (0, 0, t, x, y, z). -/
theorem input_x_real_mode_reads_released_storage :
    (∀ (F : Type) (sim : Bool) (zero : F) (ofInt : Int → F) (tbl : Nat → Nat → F)
        (n : Nat) (t : F) (getOutput expired : Cells → Cells),
      (input_x sim zero ofInt tbl n t getOutput expired).shape = [1, 6] ∧
      (input_x sim zero ofInt tbl n t getOutput expired).data.length = 6 ∧
      (input_x true zero ofInt tbl n t getOutput expired).data =
        [tbl n 0, tbl n 1, tbl n 2, tbl n 3, tbl n 4, tbl n 5] ∧
      (input_x false zero ofInt tbl n t getOutput expired).data =
        [zero, zero, t, ofInt (expired (getOutput (0, 0, 0))).1,
          ofInt (expired (getOutput (0, 0, 0))).2.1,
          ofInt (expired (getOutput (0, 0, 0))).2.2] ∧
      (input_x false zero ofInt tbl n t getOutput id).data =
        [zero, zero, t, ofInt (getOutput (0, 0, 0)).1,
          ofInt (getOutput (0, 0, 0)).2.1, ofInt (getOutput (0, 0, 0)).2.2]) ∧
    (input_x false (0 : ℚ) (fun i => (i : ℚ)) (fun _ _ => 0) 0 (2449 / 100)
        (fun _ => (10, -20, 30)) (fun _ => (7, 7, 7))).data
      = [0, 0, 2449 / 100, 7, 7, 7] ∧
    (input_x false (0 : ℚ) (fun i => (i : ℚ)) (fun _ _ => 0) 0 (2449 / 100)
        (fun _ => (10, -20, 30)) (fun _ => (7, 7, 7))).data
      ≠ [0, 0, 2449 / 100, 10, -20, 30] := by
  refine ⟨fun F sim zero ofInt tbl n t getOutput expired => ⟨?_, ?_, ?_, ?_, ?_⟩, ?_, ?_⟩
  · cases sim <;> simp [input_x, sensor_features]
  · cases sim <;> simp [input_x, sensor_features]
  · simp [input_x, sensor_features, List.range_succ]
  · simp [input_x, Vibration.ReadData]
  · simp [input_x, Vibration.ReadData]
  · simp [input_x, Vibration.ReadData]
  · simp [input_x, Vibration.ReadData]

end PredictiveMaintenance
